import Mathlib

/-!
Verification of the aggregation / metrics / filtering core of the
amazon-ads-dashboard repository.

Modelling conventions used throughout:
* pandas / numpy floating-point values are modelled as rationals `ℚ`;
  a NaN ("undefined / missing") value is modelled as `none : Option ℚ`.
* A dataframe column of base counters is a field of a row structure.
* Dates are modelled as integers (day numbers); a value produced by
  `pd.to_datetime(..., errors="coerce")` is `Option ℤ` (NaT is `none`).
* File-system contents are passed explicitly as lookup functions.
-/

namespace AdsDash

/-- Input to `compute_kpis_from_totals` (app/pages/utils/metrics.py):
a mapping with the five base counters; a missing key (`totals.get(k, 0) or 0`)
is modelled as `none` and read back with default 0. -/
structure Totals where
  impressions : Option ℚ := none
  clicks : Option ℚ := none
  cost : Option ℚ := none
  orders : Option ℚ := none
  sales : Option ℚ := none
deriving DecidableEq

/-- Output of `compute_kpis_from_totals`: the five derived ratios,
each `none` exactly when the corresponding numpy value is NaN. -/
structure Kpis where
  ctr : Option ℚ
  cpc : Option ℚ
  cvr : Option ℚ
  acos : Option ℚ
  roas : Option ℚ
deriving DecidableEq

/-- Function `compute_kpis_from_totals` from app/pages/utils/metrics.py lines 4-20:
reads each counter with default 0 and forms the five ratios, producing
NaN (`none`) whenever the tested denominator is exactly zero. -/
def compute_kpis_from_totals (totals : Totals) : Kpis :=
  let imp := totals.impressions.getD 0
  let clk := totals.clicks.getD 0
  let cost := totals.cost.getD 0
  let ords := totals.orders.getD 0
  let sales := totals.sales.getD 0
  { ctr := if imp = 0 then none else some (clk / imp)
    cpc := if clk = 0 then none else some (cost / clk)
    cvr := if clk = 0 then none else some (ords / clk)
    acos := if sales = 0 then none else some (cost / sales)
    roas := if cost = 0 then none else some (sales / cost) }

/-- One input row of a daily table: a grouping key (the tuple of dimension
columns, abstracted as a type `K`) and the five base counters. -/
structure Row (K : Type) where
  key : K
  impressions : ℚ
  clicks : ℚ
  cost : ℚ
  orders : ℚ
  sales : ℚ
deriving DecidableEq

/-- One output group of `aggregate_period` / the Overview `camp_agg`
pipeline: summed counters plus the recomputed derived metrics. -/
structure AggRow (K : Type) where
  key : K
  impressions : ℚ
  clicks : ℚ
  cost : ℚ
  orders : ℚ
  sales : ℚ
  ctr : Option ℚ
  cpc : Option ℚ
  cvr : Option ℚ
  acos : Option ℚ
  roas : Option ℚ
deriving DecidableEq

/-- Sum of a counter over a list of rows (the `.agg(... "sum")` step). -/
def sumBy {K : Type} (f : Row K → ℚ) (rows : List (Row K)) : ℚ :=
  rows.foldl (fun acc r => acc + f r) 0

/-- The rows belonging to the group with key `k`. -/
def groupRows {K : Type} [DecidableEq K] (rows : List (Row K)) (k : K) :
    List (Row K) :=
  rows.filter (fun r => decide (r.key = k))

/-- The aggregate row for key `k`: summed counters, then the derived
metrics recomputed from the sums exactly as the `np.where` lines of
`aggregate_period` (app/pages/Drilldowns.py lines 61-77) and the
vectorized KPI block of Overview.py lines 113-131 do. -/
def aggregateKey {K : Type} [DecidableEq K] (rows : List (Row K)) (k : K) :
    AggRow K :=
  let g := groupRows rows k
  let imp := sumBy (fun r => r.impressions) g
  let clk := sumBy (fun r => r.clicks) g
  let cost := sumBy (fun r => r.cost) g
  let ords := sumBy (fun r => r.orders) g
  let sales := sumBy (fun r => r.sales) g
  { key := k
    impressions := imp
    clicks := clk
    cost := cost
    orders := ords
    sales := sales
    ctr := if imp = 0 then none else some (clk / imp)
    cpc := if clk = 0 then none else some (cost / clk)
    cvr := if clk = 0 then none else some (ords / clk)
    acos := if sales = 0 then none else some (cost / sales)
    roas := if cost = 0 then none else some (sales / cost) }

/-- Function `aggregate_period` (app/pages/Drilldowns.py lines 61-77): one aggregate
row per distinct key value present in the input.  (pandas emits the groups
sorted by key; no claim here depends on the order of the groups, so the
embedding lists them in first-occurrence order of the deduplicated keys.) -/
def aggregate_period {K : Type} [DecidableEq K] (rows : List (Row K)) :
    List (AggRow K) :=
  ((rows.map (fun r => r.key)).dedup).map (aggregateKey rows)

/-- The Overview.py line 139 waste flag:
`(cost >= float(zero_sales_threshold)) & (sales <= 0)`. -/
def zero_sales_spend_flag {K : Type} (g : AggRow K) (threshold : ℚ) : Bool :=
  decide (threshold ≤ g.cost) && decide (g.sales ≤ 0)

/-- The sum `camp_agg["cost"].sum()` over the groups of the period. -/
def total_cost {K : Type} (groups : List (AggRow K)) : ℚ :=
  groups.foldl (fun acc g => acc + g.cost) 0

/-- The sum `camp_agg["sales"].sum()` over the groups of the period. -/
def total_sales {K : Type} (groups : List (AggRow K)) : ℚ :=
  groups.foldl (fun acc g => acc + g.sales) 0

/-- Overview.py line 135: `np.nan if total_cost == 0 else cost / total_cost`;
note the condition is on the scalar period total, so a zero total makes the
share NaN for every group of the period at once. -/
def spend_share {K : Type} (groups : List (AggRow K)) (g : AggRow K) :
    Option ℚ :=
  if total_cost groups = 0 then none else some (g.cost / total_cost groups)

/-- Overview.py line 136: analogous for sales. -/
def sales_share {K : Type} (groups : List (AggRow K)) (g : AggRow K) :
    Option ℚ :=
  if total_sales groups = 0 then none else some (g.sales / total_sales groups)

/-- NaN-propagating subtraction of two possibly-NaN values. -/
def optSub : Option ℚ → Option ℚ → Option ℚ
  | some a, some b => some (a - b)
  | _, _ => none

/-- Overview.py line 137: `share_gap = spend_share - sales_share`
(NaN propagates through the subtraction). -/
def share_gap {K : Type} (groups : List (AggRow K)) (g : AggRow K) :
    Option ℚ :=
  optSub (spend_share groups g) (sales_share groups g)

/-- One scored campaign row as consumed by the Recommendations page:
the spend/sales counters and the regressor output
`pred_future7_roas` (NaN modelled as `none`). -/
structure SRow where
  campaign_name : String
  cost : ℚ
  sales : ℚ
  pred_future7_roas : Option ℚ
deriving DecidableEq

/-- The series `scored["pred_future7_roas"].dropna()` : the defined prediction values,
taken over the FULL scored set. -/
def definedPreds (scored : List SRow) : List ℚ :=
  scored.filterMap (fun r => r.pred_future7_roas)

/-- The value `np.nanpercentile(xs, 75)` under the numpy default linear interpolation:
sort ascending, take the virtual index `q = 3*(n-1)/4`, and interpolate
linearly between the neighbouring order statistics.  Empty input has no
percentile (numpy returns NaN). -/
def nanpercentile75 (xs : List ℚ) : Option ℚ :=
  let s := List.insertionSort (fun a b : ℚ => a ≤ b) xs
  match s with
  | [] => none
  | _ :: _ =>
    let n := s.length
    let i : ℕ := 3 * (n - 1) / 4
    let q : ℚ := (3 * ((n : ℚ) - 1)) / 4
    let lo := s.getD i 0
    let hi := s.getD (min (i + 1) (n - 1)) 0
    some (lo + (q - (i : ℚ)) * (hi - lo))

/-- The boolean mask of the `scale = scored[...]` filter
(app/pages/Recommendations.py lines 52-56): cost at least `min_spend`,
prediction not NaN, and prediction at least the percentile threshold
(a NaN threshold compares false against everything, as in numpy). -/
def scaleCond (t? : Option ℚ) (min_spend : ℚ) (r : SRow) : Bool :=
  decide (min_spend ≤ r.cost) &&
    (match r.pred_future7_roas, t? with
     | some v, some t => decide (t ≤ v)
     | _, _ => false)

/-- The sort order of `scale.sort_values(["pred_future7_roas", "sales"],
ascending=[False, False])` (Recommendations.py line 117): prediction
descending, then sales descending.  On the filtered rows the prediction is
always defined, so reading NaN as 0 here does not affect the result. -/
def scaleOrder (a b : SRow) : Prop :=
  b.pred_future7_roas.getD 0 < a.pred_future7_roas.getD 0 ∨
    (a.pred_future7_roas.getD 0 = b.pred_future7_roas.getD 0 ∧
      b.sales ≤ a.sales)

instance : DecidableRel scaleOrder := fun a b => by
  unfold scaleOrder
  exact instDecidableOr

instance : IsTotal SRow scaleOrder := by
  constructor
  intro a b
  rcases lt_trichotomy (a.pred_future7_roas.getD 0) (b.pred_future7_roas.getD 0)
    with h | h | h
  · exact Or.inr (Or.inl h)
  · rcases le_total a.sales b.sales with hs | hs
    · exact Or.inr (Or.inr ⟨h.symm, hs⟩)
    · exact Or.inl (Or.inr ⟨h, hs⟩)
  · exact Or.inl (Or.inl h)

instance : IsTrans SRow scaleOrder := by
  constructor
  intro a b c hab hbc
  rcases hab with h1 | ⟨h1, s1⟩
  · rcases hbc with h2 | ⟨h2, s2⟩
    · exact Or.inl (h2.trans h1)
    · exact Or.inl (h2 ▸ h1)
  · rcases hbc with h2 | ⟨h2, s2⟩
    · exact Or.inl (h1 ▸ h2)
    · exact Or.inr ⟨h1.trans h2, s2.trans s1⟩

/-- The scale-candidate selection of the Recommendations page: filter the
scored rows by the mask above, with the percentile threshold computed over
ALL defined predictions of the scored set, then sort by prediction
descending, sales descending (a stable multi-key sort, as pandas uses). -/
def scale (scored : List SRow) (min_spend : ℚ) : List SRow :=
  let t? := nanpercentile75 (definedPreds scored)
  List.insertionSort scaleOrder (scored.filter (scaleCond t? min_spend))

/-- A dataframe: a list of column names and one list of cell values per
row, aligned with the column list. -/
structure DF where
  cols : List String
  data : List (List ℚ)
deriving DecidableEq

/-- All rows have exactly one cell per column. -/
def DF.Wf (df : DF) : Prop :=
  ∀ r ∈ df.data, r.length = df.cols.length

/-- Index of a column name. -/
def DF.colIdx (df : DF) (c : String) : Option ℕ :=
  df.cols.findIdx? (fun x => decide (x = c))

/-- The values of column `c`, when present. -/
def DF.getCol (df : DF) (c : String) : Option (List ℚ) :=
  match df.colIdx c with
  | some i => some (df.data.map (fun r => r.getD i 0))
  | none => none

/-- Pandas column assignment `df[c] = vals`: overwrite the column in place
when it exists, otherwise append it on the right. -/
def DF.setCol (df : DF) (c : String) (vals : List ℚ) : DF :=
  match df.colIdx c with
  | some i =>
      { cols := df.cols
        data := (df.data.zip vals).map (fun p => p.1.set i p.2) }
  | none =>
      { cols := df.cols ++ [c]
        data := (df.data.zip vals).map (fun p => p.1 ++ [p.2]) }

/-- Function `predict_with_models` (app/pages/utils/model.py lines 35-54).  The two
CatBoost models are opaque scorers mapping a feature vector to a scalar
(`clf` is `predict_proba(...)[:, 1]`, `reg` is `predict`); the schema is its
`features` list.  `X` starts as a copy of the input, gets a zero-filled
column for every schema feature that is absent, and is then restricted to
the schema columns in schema order; the output is a copy of the input with
the two prediction columns assigned. -/
def predict_with_models (features : List String) (clf reg : List ℚ → ℚ)
    (df_features : DF) : DF :=
  let X := features.foldl
    (fun acc c =>
      if acc.cols.contains c then acc
      else acc.setCol c (List.replicate acc.data.length 0))
    df_features
  let Xsel : List (List ℚ) := X.data.map
    (fun r => features.map
      (fun c =>
        match X.colIdx c with
        | some i => r.getD i 0
        | none => 0))
  let waste_prob := Xsel.map clf
  let future_roas := Xsel.map reg
  ((df_features.setCol "waste_risk_prob" waste_prob).setCol
    "pred_future7_roas" future_roas)

/-- One record of a served table: a (possibly NaT) date, a campaign id
already rendered as a string (the service compares `astype(str)`), and an
opaque payload cell standing for the remaining columns. -/
structure Rec where
  date : Option ℤ
  campaign_id : String
  payload : ℚ
deriving DecidableEq

/-- The processed-artifacts directory: which tables exist in parquet form
and which in csv form. -/
structure FS where
  parquet : String → Option (List Rec)
  csv : String → Option (List Rec)

/-- Method `DataService._read_table` (server/services/data_service.py lines 24-38):
prefer parquet, fall back to csv, otherwise raise `FileNotFoundError`. -/
def read_table (fs : FS) (name : String) : Except String (List Rec) :=
  match fs.parquet name with
  | some df => Except.ok df
  | none =>
      match fs.csv name with
      | some df => Except.ok df
      | none => Except.error ("Missing dataset " ++ name)

/-- The in-memory per-process cache of `DataService`. -/
structure DataService where
  cache : List (String × List Rec)
deriving DecidableEq

/-- Method `DataService.get_table` (data_service.py lines 40-50): serve from cache,
otherwise read, normalize and cache.  The `pd.to_datetime(errors="coerce")`
normalization is the identity on this embedding, whose `date` field already
holds the coerced `Option` value. -/
def get_table (fs : FS) (svc : DataService) (name : String) :
    Except String (List Rec) × DataService :=
  match svc.cache.lookup name with
  | some df => (Except.ok df, svc)
  | none =>
      match read_table fs name with
      | Except.ok df => (Except.ok df, { cache := (name, df) :: svc.cache })
      | Except.error e => (Except.error e, svc)

/-- The date-range filter of `get_records` (data_service.py lines 64-71).
A bound is `none` when not supplied, `some none` when supplied but
unparsable (`pd.to_datetime(..., errors="coerce")` gave NaT, so
`pd.notna` fails and the bound is silently skipped), and `some (some d)`
when it parses.  A row whose own date is NaT never satisfies a comparison. -/
def filter_by_dates (df : List Rec) (start_date end_date : Option (Option ℤ)) :
    List Rec :=
  let df1 := match start_date with
    | some (some sd) =>
        df.filter (fun r =>
          match r.date with
          | some d => decide (sd ≤ d)
          | none => false)
    | _ => df
  match end_date with
  | some (some ed) =>
      df1.filter (fun r =>
        match r.date with
        | some d => decide (d ≤ ed)
        | none => false)
  | _ => df1

/-- The campaign filter of `get_records` (data_service.py lines 73-75):
`if campaign_id` is Python truthiness, so an empty string imposes no
filter; otherwise string equality on the campaign column. -/
def filter_by_campaign (df : List Rec) (campaign_id : Option String) :
    List Rec :=
  match campaign_id with
  | some c =>
      if c = "" then df
      else df.filter (fun r => decide (r.campaign_id = c))
  | none => df

/-- The limit step of `get_records` (data_service.py lines 77-79): a
positive integer keeps the head of the filtered set. -/
def apply_limit (df : List Rec) (limit : Option ℤ) : List Rec :=
  match limit with
  | some l => if 0 < l then df.take l.toNat else df
  | none => df

/-- Method `DataService.get_records` (data_service.py lines 52-88): fetch the
(cached) table, filter by dates, campaign and limit on a copy, and
serialize.  The serialization step (dates to ISO strings, NaN to null) is
shape-preserving and is the identity on the `Rec` of this embedding. -/
def get_records (fs : FS) (svc : DataService) (name : String)
    (start_date end_date : Option (Option ℤ)) (campaign_id : Option String)
    (limit : Option ℤ) : Except String (List Rec) × DataService :=
  match get_table fs svc name with
  | (Except.ok df, s2) =>
      (Except.ok
        (apply_limit
          (filter_by_campaign (filter_by_dates df start_date end_date)
            campaign_id)
          limit), s2)
  | (Except.error e, s2) => (Except.error e, s2)

/-- A ten-day example table with day numbers 1..10 standing for the dates
2024-01-01..2024-01-10. -/
def tbl10 : List Rec :=
  (List.range 10).map (fun i => ⟨some ((i : ℤ) + 1), "c", 0⟩)

/-- An example artifacts directory serving `tbl10` as the parquet form of
table "t". -/
def fs10 : FS :=
  ⟨fun n => if n = "t" then some tbl10 else none, fun _ => none⟩

/-- A data service whose cache is empty (a fresh process). -/
def svc0 : DataService := ⟨[]⟩

/-- C1: for every totals mapping (missing keys read as 0),
`compute_kpis_from_totals` returns ctr = clicks/impressions,
cpc = cost/clicks, cvr = orders/clicks, acos = cost/sales,
roas = sales/cost, and each ratio is NaN (`none`) exactly when its
denominator is zero; the function is total, so no exception is raised. -/
theorem compute_kpis_zero_denominators (totals : Totals) :
    ((compute_kpis_from_totals totals).ctr = none ↔
      totals.impressions.getD 0 = 0) ∧
    (totals.impressions.getD 0 ≠ 0 →
      (compute_kpis_from_totals totals).ctr =
        some (totals.clicks.getD 0 / totals.impressions.getD 0)) ∧
    ((compute_kpis_from_totals totals).cpc = none ↔
      totals.clicks.getD 0 = 0) ∧
    (totals.clicks.getD 0 ≠ 0 →
      (compute_kpis_from_totals totals).cpc =
        some (totals.cost.getD 0 / totals.clicks.getD 0)) ∧
    ((compute_kpis_from_totals totals).cvr = none ↔
      totals.clicks.getD 0 = 0) ∧
    (totals.clicks.getD 0 ≠ 0 →
      (compute_kpis_from_totals totals).cvr =
        some (totals.orders.getD 0 / totals.clicks.getD 0)) ∧
    ((compute_kpis_from_totals totals).acos = none ↔
      totals.sales.getD 0 = 0) ∧
    (totals.sales.getD 0 ≠ 0 →
      (compute_kpis_from_totals totals).acos =
        some (totals.cost.getD 0 / totals.sales.getD 0)) ∧
    ((compute_kpis_from_totals totals).roas = none ↔
      totals.cost.getD 0 = 0) ∧
    (totals.cost.getD 0 ≠ 0 →
      (compute_kpis_from_totals totals).roas =
        some (totals.sales.getD 0 / totals.cost.getD 0)) := by
  unfold compute_kpis_from_totals
  refine ⟨?_, ?_, ?_, ?_, ?_, ?_, ?_, ?_, ?_, ?_⟩ <;>
    first
      | (constructor <;> (intro h; simp_all))
      | (intro h; simp [h])

/-- Witness for C1 at totals (impressions 10, clicks 5, cost 2, orders 1,
sales 4): ctr is defined and equals 5/10. -/
theorem compute_kpis_zero_denominators_witness :
    (compute_kpis_from_totals
      ⟨some 10, some 5, some 2, some 1, some 4⟩).ctr = some (5 / 10) :=
  (compute_kpis_zero_denominators
    ⟨some 10, some 5, some 2, some 1, some 4⟩).2.1 (by decide)

/-- C4 counterexample: with clicks = 0 but impressions = 100, the returned
ctr is 0/100 = 0, a defined value, so "clicks = 0 implies ctr undefined"
is false on the code (the ctr guard tests impressions, not clicks). -/
theorem clicks_zero_ctr_defined_cex :
    ¬ ((compute_kpis_from_totals
        ⟨some 100, some 0, none, none, none⟩).ctr = none) := by
  decide

/-- C4 amended: with clicks = 0, cpc and cvr are undefined (ctr is instead
undefined exactly when impressions = 0); with cost = 0, roas is undefined;
with sales = 0, acos is undefined. -/
theorem zero_counter_undefined_kpis (totals : Totals) :
    (totals.clicks.getD 0 = 0 →
      (compute_kpis_from_totals totals).cpc = none ∧
      (compute_kpis_from_totals totals).cvr = none) ∧
    (totals.impressions.getD 0 = 0 →
      (compute_kpis_from_totals totals).ctr = none) ∧
    (totals.cost.getD 0 = 0 →
      (compute_kpis_from_totals totals).roas = none) ∧
    (totals.sales.getD 0 = 0 →
      (compute_kpis_from_totals totals).acos = none) := by
  unfold compute_kpis_from_totals
  refine ⟨?_, ?_, ?_, ?_⟩ <;> (intro h; simp [h])

/-- Witness for the amended C4 at all-zero totals: cpc is undefined. -/
theorem zero_counter_undefined_kpis_witness :
    (compute_kpis_from_totals
      ⟨some 0, some 0, some 0, some 0, some 0⟩).cpc = none :=
  ((zero_counter_undefined_kpis
    ⟨some 0, some 0, some 0, some 0, some 0⟩).1 (by decide)).1

/-- C5: for every aggregate group and threshold t ≥ 0, the waste flag is
true iff cost ≥ t and sales ≤ 0; the cost comparison is inclusive, so
(cost 1.0, sales 0, t 1.0) flags and (cost 0.99, sales 0, t 1.0) does not. -/
theorem zero_sales_spend_flag_iff {K : Type} (g : AggRow K) (t : ℚ)
    (ht : 0 ≤ t) :
    (zero_sales_spend_flag g t = true ↔ t ≤ g.cost ∧ g.sales ≤ 0) ∧
    zero_sales_spend_flag (K := Unit)
      ⟨(), 0, 0, 1, 0, 0, none, none, none, none, none⟩ 1 = true ∧
    zero_sales_spend_flag (K := Unit)
      ⟨(), 0, 0, mkRat 99 100, 0, 0, none, none, none, none, none⟩ 1 = false := by
  refine ⟨?_, by decide, by decide⟩
  simp [zero_sales_spend_flag]

/-- Witness for C5 at threshold 1 and a group with cost 2, sales 0:
the flag is set. -/
theorem zero_sales_spend_flag_iff_witness :
    zero_sales_spend_flag (K := Unit)
      ⟨(), 0, 0, 2, 0, 0, none, none, none, none, none⟩ 1 = true :=
  ((zero_sales_spend_flag_iff (K := Unit)
    ⟨(), 0, 0, 2, 0, 0, none, none, none, none, none⟩ 1
    (by decide)).1).mpr (by decide)

/-- C2: every group produced by `aggregate_period` carries the element-wise
sums of the five counters over the rows of its key, and its derived metrics
are recomputed from those summed counters (ratio of sums, never an average
of ratios); on the concrete pair of rows (100,10,50,2,100) and
(200,20,50,3,50) sharing a key the result is the single group
(300,30,100,5,150) with acos = 100/150, not 0.75. -/
theorem aggregate_period_sums_and_recomputes {K : Type} [DecidableEq K]
    (rows : List (Row K)) (g : AggRow K) (hg : g ∈ aggregate_period rows) :
    (g.impressions = sumBy (fun r => r.impressions) (groupRows rows g.key) ∧
     g.clicks = sumBy (fun r => r.clicks) (groupRows rows g.key) ∧
     g.cost = sumBy (fun r => r.cost) (groupRows rows g.key) ∧
     g.orders = sumBy (fun r => r.orders) (groupRows rows g.key) ∧
     g.sales = sumBy (fun r => r.sales) (groupRows rows g.key)) ∧
    (g.ctr =
      if g.impressions = 0 then none else some (g.clicks / g.impressions)) ∧
    (g.cpc = if g.clicks = 0 then none else some (g.cost / g.clicks)) ∧
    (g.cvr = if g.clicks = 0 then none else some (g.orders / g.clicks)) ∧
    (g.acos = if g.sales = 0 then none else some (g.cost / g.sales)) ∧
    (g.roas = if g.cost = 0 then none else some (g.sales / g.cost)) ∧
    aggregate_period (K := ℕ)
        [⟨0, 100, 10, 50, 2, 100⟩, ⟨0, 200, 20, 50, 3, 50⟩] =
      [⟨0, 300, 30, 100, 5, 150, some (30 / 300), some (100 / 30),
        some (5 / 30), some (100 / 150), some (150 / 100)⟩] ∧
    some ((100 : ℚ) / 150) ≠ some ((3 : ℚ) / 4) := by
  obtain ⟨k, -, rfl⟩ := List.mem_map.mp hg
  refine ⟨⟨rfl, rfl, rfl, rfl, rfl⟩, rfl, rfl, rfl, rfl, rfl, ?_, ?_⟩
  · norm_num [aggregate_period, aggregateKey, groupRows, sumBy, List.dedup]
  · norm_num

/-- Witness for C2: the combined group of the two concrete rows is a member
of the aggregate output, and its acos is the ratio of the summed cost and
summed sales. -/
theorem aggregate_period_sums_and_recomputes_witness :
    (⟨0, 300, 30, 100, 5, 150, some (30 / 300), some (100 / 30),
      some (5 / 30), some (100 / 150), some (150 / 100)⟩ : AggRow ℕ).acos =
      if (⟨0, 300, 30, 100, 5, 150, some (30 / 300), some (100 / 30),
        some (5 / 30), some (100 / 150), some (150 / 100)⟩ : AggRow ℕ).sales
          = 0
      then none
      else some
        ((⟨0, 300, 30, 100, 5, 150, some (30 / 300), some (100 / 30),
          some (5 / 30), some (100 / 150), some (150 / 100)⟩ : AggRow ℕ).cost /
         (⟨0, 300, 30, 100, 5, 150, some (30 / 300), some (100 / 30),
          some (5 / 30), some (100 / 150), some (150 / 100)⟩ : AggRow ℕ).sales) :=
  (aggregate_period_sums_and_recomputes (K := ℕ)
    [⟨0, 100, 10, 50, 2, 100⟩, ⟨0, 200, 20, 50, 3, 50⟩] _
    (by norm_num [aggregate_period, aggregateKey, groupRows, sumBy,
      List.dedup])).2.2.2.2.1

/-- C6: spend_share is cost over period-total cost and sales_share is sales
over period-total sales, share_gap is their difference with NaN
propagation, and a zero period total makes the corresponding share NaN for
every group of the period; concretely, groups with costs 30 and 70 get
spend shares 30/100 and 70/100. -/
theorem share_metrics {K : Type} (groups : List (AggRow K)) (g : AggRow K) :
    (total_cost groups = 0 → spend_share groups g = none) ∧
    (total_cost groups ≠ 0 →
      spend_share groups g = some (g.cost / total_cost groups)) ∧
    (total_sales groups = 0 → sales_share groups g = none) ∧
    (total_sales groups ≠ 0 →
      sales_share groups g = some (g.sales / total_sales groups)) ∧
    (∀ a b, spend_share groups g = some a → sales_share groups g = some b →
      share_gap groups g = some (a - b)) ∧
    (spend_share groups g = none ∨ sales_share groups g = none →
      share_gap groups g = none) ∧
    spend_share (K := Unit)
      [⟨(), 0, 0, 30, 0, 0, none, none, none, none, none⟩,
       ⟨(), 0, 0, 70, 0, 0, none, none, none, none, none⟩]
      ⟨(), 0, 0, 30, 0, 0, none, none, none, none, none⟩ = some (30 / 100) ∧
    spend_share (K := Unit)
      [⟨(), 0, 0, 30, 0, 0, none, none, none, none, none⟩,
       ⟨(), 0, 0, 70, 0, 0, none, none, none, none, none⟩]
      ⟨(), 0, 0, 70, 0, 0, none, none, none, none, none⟩ = some (70 / 100) ∧
    spend_share (K := Unit)
      [⟨(), 0, 0, 0, 0, 0, none, none, none, none, none⟩,
       ⟨(), 0, 0, 0, 0, 0, none, none, none, none, none⟩]
      ⟨(), 0, 0, 0, 0, 0, none, none, none, none, none⟩ = none := by
  refine ⟨?_, ?_, ?_, ?_, ?_, ?_, ?_, ?_, ?_⟩
  · intro h; simp [spend_share, h]
  · intro h; simp [spend_share, h]
  · intro h; simp [sales_share, h]
  · intro h; simp [sales_share, h]
  · intro a b ha hb; simp [share_gap, ha, hb, optSub]
  · rintro (h | h) <;> simp [share_gap, h, optSub]
  · norm_num [spend_share, total_cost]
  · norm_num [spend_share, total_cost]
  · norm_num [spend_share, total_cost]

/-- Witness for C6 at the two-group period with costs 30 and 70: the period
total is nonzero, so the spend share of the first group is 30/100. -/
theorem share_metrics_witness :
    spend_share (K := Unit)
      [⟨(), 0, 0, 30, 0, 0, none, none, none, none, none⟩,
       ⟨(), 0, 0, 70, 0, 0, none, none, none, none, none⟩]
      ⟨(), 0, 0, 30, 0, 0, none, none, none, none, none⟩ =
      some ((⟨(), 0, 0, 30, 0, 0, none, none, none, none,
        none⟩ : AggRow Unit).cost /
        total_cost (K := Unit)
          [⟨(), 0, 0, 30, 0, 0, none, none, none, none, none⟩,
           ⟨(), 0, 0, 70, 0, 0, none, none, none, none, none⟩]) :=
  (share_metrics (K := Unit)
    [⟨(), 0, 0, 30, 0, 0, none, none, none, none, none⟩,
     ⟨(), 0, 0, 70, 0, 0, none, none, none, none, none⟩]
    ⟨(), 0, 0, 30, 0, 0, none, none, none, none, none⟩).2.1
    (by norm_num [total_cost])

/-- C7: the date-range filter of get_records keeps exactly the rows whose
date lies in the inclusive range, an unparsable bound imposes no filter, a
supplied campaign_id keeps exactly the rows with that campaign string, and
a positive limit keeps the first `limit` rows; on the ten-day table, the
range day 5 .. day 7 yields exactly the three rows 5, 6, 7 and limit 2
then yields the first two of them. -/
theorem get_records_filtering (df : List Rec) (sd ed : ℤ)
    (ed2 : Option (Option ℤ)) (c : String) (l : ℤ) (hc : c ≠ "") :
    (filter_by_dates df (some (some sd)) (some (some ed)) =
      df.filter (fun r =>
        match r.date with
        | some d => decide (sd ≤ d) && decide (d ≤ ed)
        | none => false)) ∧
    (filter_by_dates df (some none) ed2 = filter_by_dates df none ed2) ∧
    (filter_by_dates df none none = df) ∧
    (filter_by_campaign df (some c) =
      df.filter (fun r => decide (r.campaign_id = c))) ∧
    (0 < l → apply_limit df (some l) = df.take l.toNat) ∧
    (get_records fs10 svc0 "t" (some (some 5)) (some (some 7)) none
      none).1 =
      Except.ok [⟨some 5, "c", 0⟩, ⟨some 6, "c", 0⟩, ⟨some 7, "c", 0⟩] ∧
    (get_records fs10 svc0 "t" (some (some 5)) (some (some 7)) none
      (some 2)).1 =
      Except.ok [⟨some 5, "c", 0⟩, ⟨some 6, "c", 0⟩] := by
  refine ⟨?_, rfl, rfl, ?_, ?_, ?_, ?_⟩
  · simp only [filter_by_dates, List.filter_filter]
    apply List.filter_congr
    intro r _
    cases r.date <;> simp [Bool.and_comm]
  · simp [filter_by_campaign, hc]
  · intro h
    simp [apply_limit, h]
  · rfl
  · rfl

/-- Witness for C7 at campaign id "a" and limit 2 on a one-row table. -/
theorem get_records_filtering_witness :
    (filter_by_campaign [(⟨some 1, "a", 0⟩ : Rec)] (some "a") =
      List.filter (fun r => decide (r.campaign_id = "a"))
        [(⟨some 1, "a", 0⟩ : Rec)]) ∧
    apply_limit [(⟨some 1, "a", 0⟩ : Rec)] (some 2) =
      List.take (2 : ℤ).toNat [(⟨some 1, "a", 0⟩ : Rec)] :=
  ⟨(get_records_filtering [⟨some 1, "a", 0⟩] 0 0 none "a" 2
      (by decide)).2.2.2.1,
   (get_records_filtering [⟨some 1, "a", 0⟩] 0 0 none "a" 2
      (by decide)).2.2.2.2.1 (by decide)⟩

/-- C8: when neither the parquet nor the csv form of a table exists (and
nothing is cached for it), get_records surfaces the distinguishable
"missing dataset" error rather than an empty record list; when at least
one form exists, the call returns an ok record list. -/
theorem missing_dataset_error (fs : FS) (svc : DataService) (name : String) :
    (svc.cache.lookup name = none → fs.parquet name = none →
      fs.csv name = none →
      (get_records fs svc name none none none none).1 =
        Except.error ("Missing dataset " ++ name)) ∧
    ((fs.parquet name).isSome ∨ (fs.csv name).isSome →
      ∃ out, (get_records fs svc name none none none none).1 =
        Except.ok out) := by
  constructor
  · intro h1 h2 h3
    simp [get_records, get_table, read_table, h1, h2, h3]
  · intro h
    rcases hcache : svc.cache.lookup name with _ | df
    · rcases hp : fs.parquet name with _ | df
      · rcases hcsv : fs.csv name with _ | df
        · simp [hp, hcsv] at h
        · exact ⟨df, by
            simp [get_records, get_table, read_table, hcache, hp, hcsv,
              filter_by_dates, filter_by_campaign, apply_limit]⟩
      · exact ⟨df, by
          simp [get_records, get_table, read_table, hcache, hp,
            filter_by_dates, filter_by_campaign, apply_limit]⟩
    · exact ⟨df, by
        simp [get_records, get_table, hcache, filter_by_dates,
          filter_by_campaign, apply_limit]⟩

/-- Witness for C8: an empty artifacts directory yields the missing-dataset
error for table "x". -/
theorem missing_dataset_error_witness :
    (get_records ⟨fun _ => none, fun _ => none⟩ ⟨[]⟩ "x" none none none
      none).1 = Except.error ("Missing dataset " ++ "x") :=
  (missing_dataset_error ⟨fun _ => none, fun _ => none⟩ ⟨[]⟩ "x").1
    rfl rfl rfl

/-- C9: two successive get_records calls with identical parameters return
identical output — the caching and filtering of the first call do not change
what the second call observes. -/
theorem get_records_idempotent (fs : FS) (svc : DataService) (name : String)
    (sd ed : Option (Option ℤ)) (cid : Option String) (lim : Option ℤ) :
    (get_records fs (get_records fs svc name sd ed cid lim).2 name sd ed
      cid lim).1 = (get_records fs svc name sd ed cid lim).1 := by
  rcases hcache : svc.cache.lookup name with _ | df
  · rcases hread : read_table fs name with e | df
    · simp [get_records, get_table, hcache, hread]
    · simp [get_records, get_table, hcache, hread, List.lookup]
  · simp [get_records, get_table, hcache]

/-- C3: the scale-candidate selection keeps exactly the scored rows with
cost ≥ min_spend, a defined prediction, and prediction ≥ the interpolated
75th percentile of ALL defined predictions of the scored input (not of the
spend-filtered subset), sorted by prediction descending then sales
descending.  Concretely: the percentile of [1,2,3,4,5] is 4 and the
candidates are the rows with values 4 and 5; and in the second example the
row with prediction 5 is kept even though its cost is below min_spend for
percentile purposes — its prediction still enters the population, so the
threshold stays 4 rather than the 4.25 a spend-filtered population would
give. -/
theorem scale_candidates_selection (scored : List SRow) (ms t : ℚ)
    (ht : nanpercentile75 (definedPreds scored) = some t) :
    (scale scored ms).Perm
      (scored.filter (fun r =>
        decide (ms ≤ r.cost) &&
          match r.pred_future7_roas with
          | some v => decide (t ≤ v)
          | none => false)) ∧
    List.Sorted scaleOrder (scale scored ms) ∧
    nanpercentile75 [1, 2, 3, 4, 5] = some 4 ∧
    scale [⟨"r1", 10, 0, some 1⟩, ⟨"r2", 10, 0, some 2⟩,
      ⟨"r3", 10, 0, some 3⟩, ⟨"r4", 10, 0, some 4⟩,
      ⟨"r5", 10, 0, some 5⟩] 0 =
      [⟨"r5", 10, 0, some 5⟩, ⟨"r4", 10, 0, some 4⟩] ∧
    scale [⟨"r1", 5, 0, some 1⟩, ⟨"r2", 10, 0, some 2⟩,
      ⟨"r3", 10, 0, some 3⟩, ⟨"r4", 10, 0, some 4⟩,
      ⟨"r5", 10, 0, some 5⟩] 10 =
      [⟨"r5", 10, 0, some 5⟩, ⟨"r4", 10, 0, some 4⟩] := by
  refine ⟨?_, ?_, ?_, ?_, ?_⟩
  · have hfil : scored.filter (scaleCond (some t) ms) =
        scored.filter (fun r =>
          decide (ms ≤ r.cost) &&
            match r.pred_future7_roas with
            | some v => decide (t ≤ v)
            | none => false) := by
      apply List.filter_congr
      intro r _
      rcases hr : r.pred_future7_roas with _ | v <;> simp [scaleCond, hr]
    simp only [scale]
    rw [ht, hfil]
    exact List.perm_insertionSort _ _
  · simp only [scale]
    exact List.sorted_insertionSort _ _
  · norm_num [nanpercentile75, List.insertionSort, List.orderedInsert,
      List.getD]
  · norm_num [scale, scaleCond, definedPreds, nanpercentile75, scaleOrder,
      List.insertionSort, List.orderedInsert, List.getD]
  · norm_num [scale, scaleCond, definedPreds, nanpercentile75, scaleOrder,
      List.insertionSort, List.orderedInsert, List.getD]

/-- Witness for C3 at the five-row example with min_spend 0: the selected
list is sorted by prediction descending then sales descending. -/
theorem scale_candidates_selection_witness :
    List.Sorted scaleOrder
      (scale [⟨"r1", 10, 0, some 1⟩, ⟨"r2", 10, 0, some 2⟩,
        ⟨"r3", 10, 0, some 3⟩, ⟨"r4", 10, 0, some 4⟩,
        ⟨"r5", 10, 0, some 5⟩] 0) :=
  (scale_candidates_selection
    [⟨"r1", 10, 0, some 1⟩, ⟨"r2", 10, 0, some 2⟩, ⟨"r3", 10, 0, some 3⟩,
      ⟨"r4", 10, 0, some 4⟩, ⟨"r5", 10, 0, some 5⟩] 0 4
    (by norm_num [definedPreds, nanpercentile75, List.insertionSort,
      List.orderedInsert, List.getD])).2.1

theorem colIdx_of_not_mem {df : DF} {c : String} (h : c ∉ df.cols) :
    df.colIdx c = none := by
  simp only [DF.colIdx, List.findIdx?_eq_none_iff]
  intro x hx
  exact decide_eq_false (fun hxc => h (hxc ▸ hx))

theorem colIdx_lt_length {df : DF} {c : String} {i : ℕ}
    (h : df.colIdx c = some i) : i < df.cols.length := by
  obtain ⟨hlt, -⟩ := List.findIdx?_eq_some_iff_getElem.mp h
  exact hlt

theorem setCol_of_not_mem {df : DF} {c : String} (vals : List ℚ)
    (h : c ∉ df.cols) :
    (df.setCol c vals).cols = df.cols ++ [c] ∧
    (df.setCol c vals).data =
      (df.data.zip vals).map (fun p => p.1 ++ [p.2]) := by
  simp [DF.setCol, colIdx_of_not_mem h]

theorem setCol_data_length (df : DF) (c : String) (vals : List ℚ) :
    (df.setCol c vals).data.length = min df.data.length vals.length := by
  unfold DF.setCol
  rcases df.colIdx c with _ | i <;> simp

theorem fill_missing_data_length (features : List String) (df : DF) :
    (features.foldl
      (fun acc c =>
        if acc.cols.contains c then acc
        else acc.setCol c (List.replicate acc.data.length 0))
      df).data.length = df.data.length := by
  induction features generalizing df with
  | nil => rfl
  | cons c cs ih =>
    simp only [List.foldl_cons]
    rw [ih]
    split
    · rfl
    · simp [setCol_data_length]

theorem setCol_wf {df : DF} {c : String} {vals : List ℚ}
    (hwf : df.Wf) (hc : c ∉ df.cols) :
    (df.setCol c vals).Wf := by
  obtain ⟨hcols, hdata⟩ := setCol_of_not_mem vals hc
  intro r hr
  rw [hdata] at hr
  obtain ⟨⟨r0, v⟩, hmem, rfl⟩ := List.mem_map.mp hr
  have hr0 : r0 ∈ df.data := (List.of_mem_zip hmem).1
  rw [hcols]
  simp [hwf r0 hr0]

theorem map_getD_zip_append (rows : List (List ℚ)) (vals : List ℚ) (i : ℕ)
    (hrow : ∀ r ∈ rows, i < r.length) :
    ((rows.zip vals).map (fun p => p.1 ++ [p.2])).map
        (fun r => r.getD i 0) =
      (rows.zip vals).map (fun p => p.1.getD i 0) := by
  induction rows generalizing vals with
  | nil => simp
  | cons r rs ih =>
    cases vals with
    | nil => simp
    | cons v vs =>
      simp only [List.zip_cons_cons, List.map_cons]
      rw [List.getD_append _ _ _ _ (hrow r (by simp))]
      rw [ih vs (fun r2 hr2 => hrow r2 (by simp [hr2]))]

theorem map_fst_getD_zip (rows : List (List ℚ)) (vals : List ℚ) (i : ℕ)
    (hlen : vals.length = rows.length) :
    (rows.zip vals).map (fun p => p.1.getD i 0) =
      rows.map (fun r => r.getD i 0) := by
  induction rows generalizing vals with
  | nil => simp
  | cons r rs ih =>
    cases vals with
    | nil => simp at hlen
    | cons v vs =>
      simp only [List.zip_cons_cons, List.map_cons]
      rw [ih vs (by simpa using hlen)]

theorem getCol_setCol_of_mem {df : DF} {c c0 : String} {vals : List ℚ}
    (hwf : df.Wf) (hc : c ∉ df.cols) (hc0 : c0 ∈ df.cols)
    (hlen : vals.length = df.data.length) :
    (df.setCol c vals).getCol c0 = df.getCol c0 := by
  obtain ⟨hcols, hdata⟩ := setCol_of_not_mem vals hc
  obtain ⟨i, hi⟩ : ∃ i, df.colIdx c0 = some i := by
    rcases hi : df.colIdx c0 with _ | i
    · have := List.findIdx?_eq_none_iff.mp hi c0 hc0
      simp at this
    · exact ⟨i, rfl⟩
  have hilt : i < df.cols.length := colIdx_lt_length hi
  have hcolIdx2 : (df.setCol c vals).colIdx c0 = some i := by
    unfold DF.colIdx at hi ⊢
    rw [hcols, List.findIdx?_append, hi]
    rfl
  simp only [DF.getCol, hcolIdx2, hi, hdata]
  rw [map_getD_zip_append df.data vals i
    (fun r hr => (hwf r hr).symm ▸ hilt)]
  rw [map_fst_getD_zip df.data vals i hlen]

theorem setCol_two_appends {df : DF} (wp fr : List ℚ) (hwf : df.Wf)
    (hw : "waste_risk_prob" ∉ df.cols)
    (hp : "pred_future7_roas" ∉ df.cols)
    (h1 : wp.length = df.data.length) (h2 : fr.length = df.data.length) :
    ((df.setCol "waste_risk_prob" wp).setCol "pred_future7_roas" fr).cols =
      df.cols ++ ["waste_risk_prob", "pred_future7_roas"] ∧
    ∀ c ∈ df.cols,
      ((df.setCol "waste_risk_prob" wp).setCol "pred_future7_roas"
        fr).getCol c = df.getCol c := by
  obtain ⟨hc1, hd1⟩ := setCol_of_not_mem wp hw
  have hwf1 : (df.setCol "waste_risk_prob" wp).Wf := setCol_wf hwf hw
  have hp1 : "pred_future7_roas" ∉ (df.setCol "waste_risk_prob" wp).cols := by
    rw [hc1]
    simp only [List.mem_append, List.mem_singleton]
    rintro (h | h)
    · exact hp h
    · simp at h
  have h2m : fr.length = (df.setCol "waste_risk_prob" wp).data.length := by
    rw [hd1]
    simp [List.length_zip, h1, h2]
  obtain ⟨hc2, hd2⟩ := setCol_of_not_mem fr hp1
  constructor
  · rw [hc2, hc1, List.append_assoc]
    rfl
  · intro c hc
    rw [getCol_setCol_of_mem hwf1 hp1
      (by rw [hc1]; exact List.mem_append_left _ hc) h2m]
    exact getCol_setCol_of_mem hwf hw hc h1

/-- C10 counterexample: on an input table that already has a column named
waste_risk_prob (one row, value 5), predict_with_models OVERWRITES that
column (pandas assignment semantics), so the output does not contain every
input column unchanged plus exactly two added columns: only one column is
added and the values of the input column change. -/
theorem predict_with_models_overwrite_cex :
    ¬ ((predict_with_models ["f1"] (fun _ => 0) (fun _ => 0)
          ⟨["waste_risk_prob"], [[5]]⟩).cols =
        ["waste_risk_prob"] ++ ["waste_risk_prob", "pred_future7_roas"] ∧
      (predict_with_models ["f1"] (fun _ => 0) (fun _ => 0)
          ⟨["waste_risk_prob"], [[5]]⟩).getCol "waste_risk_prob" =
        DF.getCol ⟨["waste_risk_prob"], [[5]]⟩ "waste_risk_prob") := by
  decide

/-- C10 amended: for every well-formed input table that does not already
contain a waste_risk_prob or pred_future7_roas column, the output of
predict_with_models has exactly the input columns plus those two appended
columns, every input column keeps its values, and every schema feature
absent from the input (and distinct from the two output names) does not
appear among the output columns; missing features are zero-filled only in
the model matrix.  (The input table itself is a pure value here, so it is
unmutated by construction, matching the `df_features.copy()` in the code.) -/
theorem predict_with_models_extends (features : List String)
    (clf reg : List ℚ → ℚ) (df : DF) (hwf : df.Wf)
    (hw : "waste_risk_prob" ∉ df.cols)
    (hp : "pred_future7_roas" ∉ df.cols) :
    (predict_with_models features clf reg df).cols =
      df.cols ++ ["waste_risk_prob", "pred_future7_roas"] ∧
    (∀ c ∈ df.cols,
      (predict_with_models features clf reg df).getCol c = df.getCol c) ∧
    (∀ c ∈ features, c ∉ df.cols → c ≠ "waste_risk_prob" →
      c ≠ "pred_future7_roas" →
      c ∉ (predict_with_models features clf reg df).cols) := by
  simp only [predict_with_models]
  refine ⟨(setCol_two_appends _ _ hwf hw hp
      (by simp only [List.length_map]; exact fill_missing_data_length features df)
      (by simp only [List.length_map]; exact fill_missing_data_length features df)).1,
    (setCol_two_appends _ _ hwf hw hp
      (by simp only [List.length_map]; exact fill_missing_data_length features df)
      (by simp only [List.length_map]; exact fill_missing_data_length features df)).2, ?_⟩
  intro c _ hcd hcw hcp
  rw [(setCol_two_appends _ _ hwf hw hp
    (by simp only [List.length_map]; exact fill_missing_data_length features df)
    (by simp only [List.length_map]; exact fill_missing_data_length features df)).1]
  simp only [List.mem_append, List.mem_cons, List.mem_singleton,
    List.not_mem_nil]
  rintro (h | h | h | h)
  · exact hcd h
  · exact hcw h
  · exact hcp h
  · exact h

/-- Witness for the amended C10 on a one-column, one-row well-formed
table with a feature column f1: the output columns are
[f1, waste_risk_prob, pred_future7_roas]. -/
theorem predict_with_models_extends_witness :
    (predict_with_models ["f1"] (fun _ => 0) (fun _ => 0)
        ⟨["f1"], [[5]]⟩).cols =
      ["f1"] ++ ["waste_risk_prob", "pred_future7_roas"] :=
  (predict_with_models_extends ["f1"] (fun _ => 0) (fun _ => 0)
    ⟨["f1"], [[5]]⟩ (by intro r hr; simp at hr; simp [hr])
    (by simp) (by simp)).1

end AdsDash
